import Mathlib

/-!
Shallow embedding of `src/Second_Solution.py` (class `QueryExecutor` and the
top-level driver block) for checking the repository specification.

Console behaviour is modelled as a trace of events: lines printed to stdout,
output written to stderr (the traceback printer), and SQL statements issued
through the database driver.  Control flow that escapes a function
(`sys.exit(0)` raising `SystemExit`, or a non-database Python exception
propagating) is modelled by a terminal marker carried next to the trace.
The database itself is an oracle: each statement call is given an outcome
(success with cursor data, a `psycopg2.Error`, or a non-database exception).
-/

namespace SecondSolution

/-! ## Python whitespace primitives

`re.sub(r'\s+', ' ', …)` and `str.strip()` both use the Python whitespace
class; for the ASCII range this is space, tab, newline, vertical tab, form
feed and carriage return.  The queries of this repository are ASCII. -/

/-- The Python `\s` / `str.strip` whitespace test, restricted to ASCII. -/
def isPySpace (c : Char) : Bool :=
  c = ' ' || c = '\t' || c = '\n' || c = '\x0b' || c = '\x0c' || c = '\r'

/-- `msg.replace('\n', ' ')` from `_print_execution_message` (line 132). -/
def replaceNL (l : List Char) : List Char :=
  l.map (fun c => if c = '\n' then ' ' else c)

/-- Worker for `re.sub(r'\s+', ' ', …)`: the flag records whether the
previous character belonged to a whitespace run already replaced. -/
def collapseAux : Bool → List Char → List Char
  | _, [] => []
  | prevWS, c :: cs =>
    if isPySpace c then
      if prevWS then collapseAux true cs
      else ' ' :: collapseAux true cs
    else c :: collapseAux false cs

/-- `re.sub(r'\s+', ' ', …)`: each maximal run of whitespace becomes one
single space (line 132). -/
def collapseWS (l : List Char) : List Char :=
  collapseAux false l

/-- Leading half of Python `str.strip()`. -/
def trimLeftWS (l : List Char) : List Char :=
  l.dropWhile (fun c => isPySpace c)

/-- Trailing half of Python `str.strip()`. -/
def trimRightWS (l : List Char) : List Char :=
  (l.reverse.dropWhile (fun c => isPySpace c)).reverse

/-- Python `str.strip()`: drop leading and trailing whitespace (line 132). -/
def stripWS (l : List Char) : List Char :=
  trimRightWS (trimLeftWS l)

/-! ## Execution-message normalization (`_print_execution_message`, lines 123-135) -/

/-- The three-dot ellipsis appended by the truncation branch (line 126). -/
def dots : List Char := ['.', '.', '.']

/-- Lines 125-128: `msg = query[:55] + "..." if len(query) > 55 else query`. -/
def truncate55 (q : List Char) : List Char :=
  if 55 < q.length then q.take 55 ++ dots else q

/-- Line 132: `re.sub(r'\s+', ' ', msg.replace('\n', ' ')).strip()`. -/
def normalizeChars (l : List Char) : List Char :=
  stripWS (collapseWS (replaceNL l))

/-- The constant opening of the printed line: `Executed the query "`. -/
def execMsgOpen : List Char := "Executed the query \"".data

/-- The full line printed by `_print_execution_message` for query text `q`,
as a character list: the normalized, truncated text wrapped in the
`Executed the query "…"` frame (line 135). -/
def execMsgChars (q : List Char) : List Char :=
  execMsgOpen ++ (normalizeChars (truncate55 q) ++ ['\"'])

/-- The printed execution-message line, as a string. -/
def execMsgLine (q : String) : String :=
  String.mk (execMsgChars q.data)

/-! ## Console and control-flow model -/

/-- One observable event of the program: a line printed to stdout (`print`
emits the string and a newline, so `print` of a string containing `\n`
yields several `out` events), output to stderr (`traceback.print_exc()`),
or an SQL statement issued through the driver (`cursor.execute`). -/
inductive Ev
  | out (s : String)
  | err (s : String)
  | sql (s : String)
deriving DecidableEq, Repr

/-- How a modelled code fragment ends: normally, by `sys.exit(code)`
(a propagating `SystemExit`), or by a propagating non-database Python
exception with message `msg` and traceback detail `detail`. -/
inductive Term
  | normal
  | exit (code : Nat)
  | exn (msg : String) (detail : String)
deriving DecidableEq, Repr

/-- The result of running a fragment: its console/SQL trace and how it
ended. -/
structure Res where
  trace : List Ev
  term : Term
deriving DecidableEq, Repr

/-- Sequencing: the second fragment runs only when the first ended
normally; a propagating `SystemExit` or exception skips it. -/
def Res.seq (a b : Res) : Res :=
  match a.term with
  | Term.normal => { trace := a.trace ++ b.trace, term := b.term }
  | _ => a

/-- A fragment that only prints and ends normally. -/
def emit (l : List Ev) : Res :=
  { trace := l, term := Term.normal }

/-- `_handle_sql_exception` (lines 82-88): `traceback.print_exc()` writes
the full error detail to stderr, `print("\nExiting due to SQL error.")`
writes a blank line and the message to stdout, and `sys.exit(0)` raises
`SystemExit` with status 0. -/
def handle_sql_exception (detail : String) : Res :=
  { trace := [Ev.err detail, Ev.out "", Ev.out "Exiting due to SQL error."],
    term := Term.exit 0 }

/-! ## Values, cursors and result-set printing -/

/-- A Python value appearing in a result row, with its `str()` form. -/
inductive PyVal
  | int (n : Int)
  | str (s : String)
  | none
deriving DecidableEq, Repr

/-- Python `str()` of a row value: numbers and strings via their natural
conversion, the absent value `None` rendering as `None`. -/
def PyVal.pyStr : PyVal → String
  | PyVal.int n => toString n
  | PyVal.str s => s
  | PyVal.none => "None"

/-- The outcome of `cursor.fetchall()`: the fetched rows, or a
`psycopg2.Error` raised while fetching, with traceback detail `d`. -/
inductive FetchOutcome
  | ok (rows : List (List PyVal))
  | error (detail : String)
deriving DecidableEq, Repr

/-- What the database leaves on a psycopg2 cursor after a successful
`cursor.execute`: `cursor.description` (`none` when the statement produced
no describable result shape) and the outcome of `cursor.fetchall()`. -/
structure CursorData where
  description : Option (List String)
  fetchResult : FetchOutcome
deriving DecidableEq, Repr

/-- `" | ".join(…)` (lines 107 and 115). -/
def sepJoin (cells : List String) : String :=
  String.intercalate " | " cells

/-- `_print_result_set` (lines 90-121): prints `Result set:`; when the
cursor has no description prints `(No results to display)` and returns;
otherwise prints the header line, then (if `fetchall` succeeds) one line
per row in order and the `Number of rows:` footer, the count being the
number of rows printed; a `psycopg2.Error` from `fetchall` is handled by
`_handle_sql_exception` inside this method. -/
def print_result_set (c : CursorData) : Res :=
  (emit [Ev.out "Result set:"]).seq
    (match c.description with
     | Option.none => emit [Ev.out "(No results to display)"]
     | Option.some headers =>
       (emit [Ev.out (sepJoin headers)]).seq
         (match c.fetchResult with
          | FetchOutcome.error d => handle_sql_exception d
          | FetchOutcome.ok rows =>
            emit ((rows.map (fun r => Ev.out (sepJoin (r.map PyVal.pyStr)))) ++
              [Ev.out ("Number of rows: " ++ toString rows.length)])))

/-! ## Statement execution -/

/-- The oracle outcome of one `cursor.execute(query)` call: success with
the resulting cursor data, a `psycopg2.Error` raised by the statement
(caught by the enclosing `except psycopg2.Error`), or a non-database
Python exception propagating uncaught out of the call. -/
inductive ExecOutcome
  | ok (cursor : CursorData)
  | dbFail (detail : String)
  | pyError (msg : String) (detail : String)
deriving DecidableEq, Repr

/-- `execute` (lines 137-150): runs the statement; a `psycopg2.Error` goes
to `_handle_sql_exception`; only after the `try` block succeeds is the
execution message printed. -/
def execute (q : String) (o : ExecOutcome) : Res :=
  match o with
  | ExecOutcome.ok _ => (emit [Ev.sql q]).seq (emit [Ev.out (execMsgLine q)])
  | ExecOutcome.dbFail d => (emit [Ev.sql q]).seq (handle_sql_exception d)
  | ExecOutcome.pyError m d => { trace := [Ev.sql q], term := Term.exn m d }

/-- `execute_query` (lines 152-171): runs the statement, prints the
execution message immediately after it completes, and renders the result
set only when `print_results` is true; a `psycopg2.Error` from the
statement goes to `_handle_sql_exception`, one from fetching is handled
inside `_print_result_set`. -/
def execute_query (q : String) (print_results : Bool) (o : ExecOutcome) : Res :=
  match o with
  | ExecOutcome.ok c =>
    (emit [Ev.sql q]).seq
      ((emit [Ev.out (execMsgLine q)]).seq
        (if print_results then print_result_set c else emit []))
  | ExecOutcome.dbFail d => (emit [Ev.sql q]).seq (handle_sql_exception d)
  | ExecOutcome.pyError m d => { trace := [Ev.sql q], term := Term.exn m d }

/-- `execute_query` called with the Python default argument
`print_results=True` (line 152). -/
def execute_query_default (q : String) (o : ExecOutcome) : Res :=
  execute_query q true o

/-! ## Connection parameters (`_initialize`, lines 36-60) -/

/-- Class variable `PG_USER` (line 8). -/
def PG_USER : String := "postgres"

/-- Class variable `PG_PASSWORD` (line 9). -/
def PG_PASSWORD : String := ""

/-- Class variable `PG_HOST` (line 10). -/
def PG_HOST : String := "localhost"

/-- Class variable `PG_PORT_NUMBER` (line 11). -/
def PG_PORT_NUMBER : String := "5432"

/-- Class variable `_SUPABASE_CONN` in its initial state (line 14):
`None`, i.e. the alternate connection string is unset. -/
def initialSupabaseConn : Option String := Option.none

/-- The parameters handed to `psycopg2.connect`: either the discrete
keyword parameters of lines 39-49, or a single connection string with the
encoding override, as in lines 52-55. -/
inductive ConnSpec
  | discrete (dbname user password host port clientEncoding : String)
  | connString (dsn clientEncoding : String)
deriving DecidableEq, Repr

/-- The client text encoding a `ConnSpec` carries. -/
def ConnSpec.clientEnc : ConnSpec → String
  | ConnSpec.discrete _ _ _ _ _ e => e
  | ConnSpec.connString _ e => e

/-- The branch on `_SUPABASE_CONN` in `_initialize` (lines 37-55): with the
alternate string unset, connect with the fixed discrete parameters and
`client_encoding='UTF8'`; with it set, connect with that string and the
same encoding override. -/
def connectionSpec (supabaseConn : Option String) (dbname : String) : ConnSpec :=
  match supabaseConn with
  | Option.none => ConnSpec.discrete dbname PG_USER PG_PASSWORD PG_HOST PG_PORT_NUMBER "UTF8"
  | Option.some c => ConnSpec.connString c "UTF8"

/-! ## Schema setup (`_initialize`, lines 65-76) -/

/-- Double each embedded double-quote character. -/
def escDouble : List Char → List Char
  | [] => []
  | c :: cs => if c = '\"' then c :: c :: escDouble cs else c :: escDouble cs

/-- Models `psycopg2.extensions.quote_ident` (libpq `PQescapeIdentifier`,
an external library call at line 71): the name wrapped in double quotes,
with embedded double quotes doubled. -/
def quote_ident (s : String) : String :=
  "\"" ++ String.mk (escDouble s.data) ++ "\""

/-- The search-path statement issued at line 71:
`SET search_path TO <quoted schema>, public;`. -/
def searchPathStmt (schema : String) : String :=
  "SET search_path TO " ++ quote_ident schema ++ ", public;"

/-- The confirmation line of line 76 (its trailing `\n` inside the
f-string produces a following blank line, modelled as a separate event). -/
def usingSchemaLine (schema : String) : String :=
  "Using schema '" ++ schema ++ "'."

/-- The oracle outcome of construction (`_initialize`): the connect call
fails with a `psycopg2.Error`, the search-path statement fails with one,
everything succeeds, or a non-database Python exception is raised before a
connection is established. -/
inductive InitOutcome
  | connFail (detail : String)
  | schemaFail (detail : String)
  | ok
  | pyError (msg : String) (detail : String)
deriving DecidableEq, Repr

/-- `_initialize` (lines 31-76): connect (a failure goes to
`_handle_sql_exception`), print `Successfully connected to Postgres.`,
issue the search-path statement (a failure goes to
`_handle_sql_exception`), then print the `Using schema …` confirmation
followed by a blank line. -/
def initQE (schema : String) (o : InitOutcome) : Res :=
  match o with
  | InitOutcome.pyError m d => { trace := [], term := Term.exn m d }
  | InitOutcome.connFail d => handle_sql_exception d
  | InitOutcome.schemaFail d =>
    (emit [Ev.out "Successfully connected to Postgres."]).seq
      ((emit [Ev.sql (searchPathStmt schema)]).seq (handle_sql_exception d))
  | InitOutcome.ok =>
    (emit [Ev.out "Successfully connected to Postgres."]).seq
      ((emit [Ev.sql (searchPathStmt schema)]).seq
        (emit [Ev.out (usingSchemaLine schema), Ev.out ""]))

/-- The default of the `schema_name` parameter of `__init__` (line 16). -/
def defaultSchemaName : String := "wine"

/-! ## The connection attribute and `close` (lines 26, 173-177) -/

/-- A psycopg2 connection object as `close` observes it: only whether it
has been closed matters.  A connection object is always truthy in Python
(psycopg2 connections define no `__bool__`). -/
structure PGConnection where
  closed : Bool
deriving DecidableEq, Repr

/-- psycopg2 `connection.close()` (an external library call): closes the
connection; since psycopg2 2.2, calling it on an already-closed connection
is a documented no-op and raises nothing. -/
def PGConnection.closeConn (_ : PGConnection) : PGConnection :=
  { closed := true }

/-- The `self.connection` attribute of a `QueryExecutor`: `None` before a
connection is opened (line 26), `some` a connection object afterwards.
Nothing in the class ever resets it to `None`. -/
structure QueryExecutorS where
  connection : Option PGConnection
deriving DecidableEq, Repr

/-- `close` (lines 173-177): `if self.connection:` — when the attribute
holds a connection object (truthy whether or not already closed), call its
`close()` and print the confirmation; when it is `None`, do nothing.  The
attribute is never set back to `None`. -/
def QueryExecutorS.close (st : QueryExecutorS) : QueryExecutorS × List Ev :=
  match st.connection with
  | Option.none => (st, [])
  | Option.some c =>
    ({ connection := Option.some c.closeConn }, [Ev.out "Database connection closed."])

/-- The executor state right after a successful construction: a live
connection is stored. -/
def postInitState : QueryExecutorS :=
  { connection := Option.some { closed := false } }

/-! ## The driver block (`if __name__ == "__main__":`, lines 182-306) -/

/-- `DB_NAME` (line 186). -/
def DB_NAME : String := "postgres"

/-- The 32-slash banner line printed around each question header. -/
def slashLine : String := "////////////////////////////////"

/-- Query 7.9E (lines 198-204), the Python triple-quoted string verbatim. -/
def q79 : String :=
  "\n            SELECT s.SUPNAME, s.SUPNR\n            FROM supplier s\n            WHERE NOT EXISTS (\n                SELECT 1 FROM purchase_order p WHERE s.SUPNR = p.SUPNR\n            )\n        "

/-- Query 7.11E (lines 209-213). -/
def q711 : String :=
  "\n            SELECT SUM(available_quantity) AS TOTAL_QUANTITY\n            FROM product\n            WHERE prodtype = 'sparkling'\n        "

/-- Query 7.12E (lines 218-224). -/
def q712 : String :=
  "\n            SELECT s.supnr, s.supname, COUNT(po.ponr) AS total_num_of_outstanding_orders\n            FROM supplier s\n            LEFT JOIN purchase_order po ON s.supnr = po.supnr\n            GROUP BY s.supnr, s.supname\n            ORDER BY s.supnr\n        "

/-- Query 7.13E (lines 229-234). -/
def q713 : String :=
  "\n            SELECT s.supnr, COUNT(s.prodnr) AS num_of_product\n            FROM supplies s\n            GROUP BY s.supnr\n            HAVING COUNT(s.prodnr) > 5\n        "

/-- Query 7.14E (lines 239-245). -/
def q714 : String :=
  "\n            SELECT s.supnr, s.supname, AVG(sp.deliv_period) AS average_delivery_time\n            FROM supplier s\n            JOIN supplies sp ON s.supnr = sp.supnr\n            GROUP BY s.supnr, s.supname\n            ORDER BY s.supnr\n        "

/-- Query 7.15E (lines 250-258). -/
def q715 : String :=
  "\n            SELECT DISTINCT ponr\n            FROM po_line\n            WHERE prodnr IN (\n                SELECT p.prodnr\n                FROM product p\n                WHERE prodtype = 'sparkling' OR prodtype = 'red'\n            )\n        "

/-- Query 7.16E (lines 263-272). -/
def q716 : String :=
  "\n            SELECT p1.prodnr\n            FROM product p1\n            WHERE 3 >= (\n                SELECT COUNT(p2.prodnr)\n                FROM product p2\n                WHERE p2.prodnr <= p1.prodnr\n            )\n            ORDER BY p1.prodnr ASC\n        "

/-- Query 7.17E (lines 277-285). -/
def q717 : String :=
  "\n            SELECT prodname, available_quantity\n            FROM product\n            WHERE available_quantity >= ALL (\n                SELECT available_quantity\n                FROM product\n                WHERE available_quantity IS NOT NULL\n            )\n        "

/-- Query 7.18E (lines 290-298). -/
def q718 : String :=
  "\n            SELECT s1.supname, s1.supnr\n            FROM supplier s1\n            WHERE NOT EXISTS(\n                SELECT 1\n                FROM supplier s2\n                WHERE s2.supnr < s1.supnr\n            )\n        "

/-- The nine banner middle lines and queries, in driver order (the 7.9E
banner has two spaces before its closing slashes in the source, the others
one). -/
def driverSteps : List (String × String) :=
  [("//////////// Question 7.9E  ////", q79),
   ("//////////// Question 7.11E ////", q711),
   ("//////////// Question 7.12E ////", q712),
   ("//////////// Question 7.13E ////", q713),
   ("//////////// Question 7.14E ////", q714),
   ("//////////// Question 7.15E ////", q715),
   ("//////////// Question 7.16E ////", q716),
   ("//////////// Question 7.17E ////", q717),
   ("//////////// Question 7.18E ////", q718)]

/-- One driver step: the three banner lines, then `qe.execute_query(q)`
with default result printing. -/
def queryStep (bannerMid : String) (q : String) (o : ExecOutcome) : Res :=
  (emit [Ev.out slashLine, Ev.out bannerMid, Ev.out slashLine]).seq
    (execute_query q true o)

/-- Run the driver steps in order against the statement-outcome oracle
(`f i` is the outcome of the `i`-th statement call); `Res.seq` stops at
the first propagating `SystemExit` or exception. -/
def runSteps : List (String × String) → (Nat → ExecOutcome) → Nat → Res
  | [], _, _ => emit []
  | (b, q) :: rest, f, i => (queryStep b q (f i)).seq (runSteps rest f (i + 1))

/-- The oracle for one end-to-end run of the driver: the outcome of
construction and the outcome of each statement the driver would issue. -/
structure World where
  init : InitOutcome
  queryOutcomes : Nat → ExecOutcome

/-- Whether `qe = QueryExecutor(...)` (line 191) completed, so that the
`finally` block sees a truthy `qe`. -/
def constructed (w : World) : Bool :=
  match w.init with
  | InitOutcome.ok => true
  | _ => false

/-- The `try` suite of the driver (lines 189-298): construct the executor
(schema `"wine"`), then run the nine banner-plus-query steps. -/
def driverBody (w : World) : Res :=
  match w.init with
  | InitOutcome.ok => (initQE "wine" InitOutcome.ok).seq (runSteps driverSteps w.queryOutcomes 0)
  | o => initQE "wine" o

/-- The observable outcome of the whole process: final trace and exit
code. -/
structure DriverOutput where
  trace : List Ev
  exitCode : Nat
deriving DecidableEq, Repr

/-- The `try` suite together with the `except Exception` clause (lines
300-302): a propagating non-database exception is caught and printed with
the `An unexpected error occurred: ` prefix plus its traceback, after
which execution continues normally; a `SystemExit` raised by
`_handle_sql_exception` is not an `Exception` and passes through. -/
def driverHandled (w : World) : Res :=
  match (driverBody w).term with
  | Term.exn m d =>
    { trace := (driverBody w).trace ++
        [Ev.out ("An unexpected error occurred: " ++ m), Ev.err d],
      term := Term.normal }
  | _ => driverBody w

/-- The whole driver with its `finally` clause (lines 303-306): the
`finally` block runs in every case — normal end, caught exception, and
propagating `SystemExit` alike — and calls `qe.close()` when `qe` was
assigned.  A process that ends normally exits with 0; a propagating
`SystemExit(c)` exits with `c`. -/
def driverMain (w : World) : DriverOutput :=
  { trace := (driverHandled w).trace ++
      (if constructed w then (postInitState.close).2 else []),
    exitCode :=
      match (driverHandled w).term with
      | Term.exit c => c
      | _ => 0 }

/-! ## Observation predicates and concrete inputs used by the theorems -/

/-- Whether an event is a printed execution-message line: a stdout line
whose first 20 characters are `Executed the query "`. -/
def isExecMsgEv : Ev → Bool
  | Ev.out s => decide (s.data.take 20 = execMsgOpen)
  | _ => false

/-- How many execution-message lines a trace holds. -/
def execMsgCount (l : List Ev) : Nat :=
  l.countP isExecMsgEv

/-- Whether an event is an SQL statement issued to the database. -/
def isSqlEv : Ev → Bool
  | Ev.sql _ => true
  | _ => false

/-- The constant opening of the row-count footer line. -/
def rowCountOpen : List Char := "Number of rows:".data

/-- Whether an event is a row-count footer line: a stdout line whose first
15 characters are `Number of rows:`. -/
def isRowCountEv : Ev → Bool
  | Ev.out s => decide (s.data.take 15 = rowCountOpen)
  | _ => false

/-- Follows the specification's words (testable property 1), not the code:
for raw text longer than 55 characters the message's pre-ellipsis portion
is claimed to equal the whitespace-collapsed form of the first 55 raw
characters — i.e. the line would be the fully normalized first 55
characters, then `...`, inside the standard frame. -/
def specLongMsgChars (q : List Char) : List Char :=
  execMsgOpen ++ (normalizeChars (q.take 55) ++ (dots ++ ['\"']))

/-- A 65-character query whose 55th character is a space: 54 `a`s, one
space, ten `b`s. -/
def cexC3 : List Char :=
  List.replicate 54 'a' ++ ' ' :: List.replicate 10 'b'

/-- Calling `close()` twice on an executor that holds a live connection:
the final state and the concatenated console output of both calls. -/
def closeTwice : QueryExecutorS × List Ev :=
  (postInitState.close.1.close.1, postInitState.close.2 ++ postInitState.close.1.close.2)

/-- A world where construction succeeds and the first statement raises a
non-database Python exception. -/
def w1 : World :=
  { init := InitOutcome.ok,
    queryOutcomes := fun _ => ExecOutcome.pyError "boom" "tb" }

/-- Sample inputs for the execution-message witness: a short query and a
long one. -/
def shortQ : List Char := "  SELECT  1 ".data

/-- The long sample: 60 `x` characters. -/
def longQ : List Char := List.replicate 60 'x'

/-! ## Helper lemmas -/

theorem replaceNL_append (l t : List Char) :
    replaceNL (l ++ t) = replaceNL l ++ replaceNL t :=
  List.map_append _ l t

theorem replaceNL_dots : replaceNL dots = dots := by decide

theorem collapseAux_append_dots (l : List Char) :
    ∀ b, collapseAux b (l ++ dots) = collapseAux b l ++ dots := by
  induction l with
  | nil => intro b; cases b <;> decide
  | cons c cs ih =>
    intro b
    cases b <;> by_cases h : isPySpace c <;>
      simp [collapseAux, h, ih]

theorem dropWhile_pySpace_append_dots (u : List Char) :
    (u ++ dots).dropWhile (fun c => isPySpace c) =
      u.dropWhile (fun c => isPySpace c) ++ dots := by
  induction u with
  | nil => decide
  | cons c cs ih => by_cases h : isPySpace c <;> simp [List.dropWhile_cons, h, ih]

theorem trimRightWS_append_dots (v : List Char) :
    trimRightWS (v ++ dots) = v ++ dots := by
  unfold trimRightWS
  rw [List.reverse_append]
  have hrev : dots.reverse = dots := by decide
  rw [hrev]
  have hdrop : (dots ++ v.reverse).dropWhile (fun c => isPySpace c) = dots ++ v.reverse := by
    simp [dots, List.dropWhile_cons, isPySpace]
  rw [hdrop, List.reverse_append, List.reverse_reverse, hrev]

theorem stripWS_append_dots (u : List Char) :
    stripWS (u ++ dots) = trimLeftWS u ++ dots := by
  unfold stripWS trimLeftWS
  rw [dropWhile_pySpace_append_dots, trimRightWS_append_dots]

theorem normalizeChars_truncated (q : List Char) (h : 55 < q.length) :
    normalizeChars (truncate55 q) =
      trimLeftWS (collapseWS (replaceNL (q.take 55))) ++ dots := by
  unfold truncate55
  rw [if_pos h]
  unfold normalizeChars collapseWS
  rw [replaceNL_append, replaceNL_dots, collapseAux_append_dots, stripWS_append_dots]

theorem take20_execMsgChars (q : List Char) :
    (execMsgChars q).take 20 = execMsgOpen := by
  unfold execMsgChars
  have h : execMsgOpen.length = 20 := by decide
  rw [← h, List.take_left]

theorem isExecMsgEv_msgLine (q : String) :
    isExecMsgEv (Ev.out (execMsgLine q)) = true := by
  unfold isExecMsgEv execMsgLine
  simp [take20_execMsgChars]

theorem execMsgLine_ne (q s : String) (h : ¬ s.data.take 20 = execMsgOpen) :
    execMsgLine q ≠ s := by
  intro he
  apply h
  rw [← he]
  exact take20_execMsgChars q.data

theorem seq_term_cases (a b : Res) :
    (a.seq b).term = b.term ∨ (a.seq b).term = a.term := by
  unfold Res.seq
  cases h : a.term <;> simp [h]

theorem exit_zero_seq (a b : Res)
    (ha : ∀ c, a.term = Term.exit c → c = 0)
    (hb : ∀ c, b.term = Term.exit c → c = 0) :
    ∀ c, (a.seq b).term = Term.exit c → c = 0 := by
  intro c h
  rcases seq_term_cases a b with hc | hc
  · exact hb c (by rw [← hc]; exact h)
  · exact ha c (by rw [← hc]; exact h)

theorem exit_zero_emit (l : List Ev) :
    ∀ c, (emit l).term = Term.exit c → c = 0 := by
  intro c h
  simp [emit] at h

theorem exit_zero_handle (d : String) :
    ∀ c, (handle_sql_exception d).term = Term.exit c → c = 0 := by
  intro c h
  simp [handle_sql_exception] at h
  omega

theorem exit_zero_print_result_set (cd : CursorData) :
    ∀ k, (print_result_set cd).term = Term.exit k → k = 0 := by
  obtain ⟨desc, fr⟩ := cd
  unfold print_result_set
  apply exit_zero_seq
  · exact exit_zero_emit _
  · cases desc with
    | none => exact exit_zero_emit _
    | some hs =>
      apply exit_zero_seq
      · exact exit_zero_emit _
      · cases fr with
        | ok rows => exact exit_zero_emit _
        | error d => exact exit_zero_handle d

theorem exit_zero_execute_query (q : String) (b : Bool) (o : ExecOutcome) :
    ∀ k, (execute_query q b o).term = Term.exit k → k = 0 := by
  cases o with
  | ok c =>
    simp only [execute_query]
    apply exit_zero_seq
    · exact exit_zero_emit _
    · apply exit_zero_seq
      · exact exit_zero_emit _
      · cases b with
        | true => simpa using exit_zero_print_result_set c
        | false => simpa using exit_zero_emit ([] : List Ev)
  | dbFail d =>
    simp only [execute_query]
    apply exit_zero_seq
    · exact exit_zero_emit _
    · exact exit_zero_handle d
  | pyError m d =>
    intro k h
    simp [execute_query] at h

theorem exit_zero_queryStep (bm q : String) (o : ExecOutcome) :
    ∀ k, (queryStep bm q o).term = Term.exit k → k = 0 := by
  unfold queryStep
  apply exit_zero_seq
  · exact exit_zero_emit _
  · exact exit_zero_execute_query q true o

theorem exit_zero_runSteps (steps : List (String × String)) :
    ∀ f i k, (runSteps steps f i).term = Term.exit k → k = 0 := by
  induction steps with
  | nil =>
    intro f i k h
    simp [runSteps, emit] at h
  | cons s rest ih =>
    intro f i
    obtain ⟨bm, q⟩ := s
    simp only [runSteps]
    apply exit_zero_seq
    · exact exit_zero_queryStep bm q (f i)
    · exact ih f (i + 1)

theorem exit_zero_initQE (s : String) (o : InitOutcome) :
    ∀ k, (initQE s o).term = Term.exit k → k = 0 := by
  cases o with
  | pyError m d =>
    intro k h
    simp [initQE] at h
  | connFail d =>
    simp only [initQE]
    exact exit_zero_handle d
  | schemaFail d =>
    simp only [initQE]
    apply exit_zero_seq
    · exact exit_zero_emit _
    · apply exit_zero_seq
      · exact exit_zero_emit _
      · exact exit_zero_handle d
  | ok =>
    simp only [initQE]
    apply exit_zero_seq
    · exact exit_zero_emit _
    · apply exit_zero_seq
      · exact exit_zero_emit _
      · exact exit_zero_emit _

theorem exit_zero_driverBody (w : World) :
    ∀ k, (driverBody w).term = Term.exit k → k = 0 := by
  cases hw : w.init with
  | ok =>
    simp only [driverBody, hw]
    apply exit_zero_seq
    · exact exit_zero_initQE "wine" InitOutcome.ok
    · exact exit_zero_runSteps driverSteps w.queryOutcomes 0
  | connFail d => simp only [driverBody, hw]; exact exit_zero_initQE "wine" _
  | schemaFail d => simp only [driverBody, hw]; exact exit_zero_initQE "wine" _
  | pyError m d => simp only [driverBody, hw]; exact exit_zero_initQE "wine" _

theorem driver_exit_zero (w : World) : (driverMain w).exitCode = 0 := by
  unfold driverMain driverHandled
  cases ht : (driverBody w).term with
  | normal => simp [ht]
  | exit c => simp [ht]; exact exit_zero_driverBody w c ht
  | exn m d => simp [ht]

/-! ## Claim theorems -/

/-- C2: the fatal-error procedure prints the full error detail to the
error stream, then a blank line, then `Exiting due to SQL error.`, and
terminates the process with exit code 0; and no path of the driver ever
exits with a nonzero status. -/
theorem fatal_error_reports_and_exits_zero :
    (∀ d, handle_sql_exception d =
      { trace := [Ev.err d, Ev.out "", Ev.out "Exiting due to SQL error."],
        term := Term.exit 0 }) ∧
    (∀ w, (driverMain w).exitCode = 0) :=
  ⟨fun _ => rfl, driver_exit_zero⟩

/-- C4: the no-result `execute` prints exactly one execution-message line
when the statement succeeds, and prints no execution-message line when the
statement fails with a database error — only the fatal-error output
appears. -/
theorem execute_message_only_on_success (q : String) :
    (∀ c, execute q (ExecOutcome.ok c) =
        { trace := [Ev.sql q, Ev.out (execMsgLine q)], term := Term.normal } ∧
      execMsgCount (execute q (ExecOutcome.ok c)).trace = 1) ∧
    (∀ d, execute q (ExecOutcome.dbFail d) =
        { trace := [Ev.sql q, Ev.err d, Ev.out "", Ev.out "Exiting due to SQL error."],
          term := Term.exit 0 } ∧
      execMsgCount (execute q (ExecOutcome.dbFail d)).trace = 0) := by
  have hsql : isExecMsgEv (Ev.sql q) = false := rfl
  constructor
  · intro c
    have htr : execute q (ExecOutcome.ok c) =
        { trace := [Ev.sql q, Ev.out (execMsgLine q)], term := Term.normal } := by
      simp [execute, Res.seq, emit]
    refine ⟨htr, ?_⟩
    rw [htr]
    simp [execMsgCount, List.countP_cons, hsql, isExecMsgEv_msgLine]
  · intro d
    have htr : execute q (ExecOutcome.dbFail d) =
        { trace := [Ev.sql q, Ev.err d, Ev.out "", Ev.out "Exiting due to SQL error."],
          term := Term.exit 0 } := by
      simp [execute, Res.seq, emit, handle_sql_exception]
    refine ⟨htr, ?_⟩
    rw [htr]
    have h1 : isExecMsgEv (Ev.err d) = false := rfl
    have h2 : isExecMsgEv (Ev.out "") = false := by decide
    have h3 : isExecMsgEv (Ev.out "Exiting due to SQL error.") = false := by decide
    simp [execMsgCount, List.countP_cons, hsql, h1, h2, h3]

/-- C5: for a result set with a describable shape, rendering prints
`Result set:`, the header of column names joined by ` | `, one line per
row in order with values joined by ` | `, and the footer
`Number of rows: <count>` with the count equal to the number of data rows;
with no describable shape it prints only `(No results to display)` under
the heading and never a row-count line. -/
theorem result_set_rendering :
    (∀ headers rows,
      print_result_set { description := Option.some headers, fetchResult := FetchOutcome.ok rows } =
        { trace := Ev.out "Result set:" :: Ev.out (sepJoin headers) ::
            (rows.map (fun r => Ev.out (sepJoin (r.map PyVal.pyStr))) ++
              [Ev.out ("Number of rows: " ++ toString rows.length)]),
          term := Term.normal }) ∧
    (∀ f, print_result_set { description := Option.none, fetchResult := f } =
        { trace := [Ev.out "Result set:", Ev.out "(No results to display)"],
          term := Term.normal } ∧
      (print_result_set { description := Option.none, fetchResult := f }).trace.countP
        isRowCountEv = 0) := by
  constructor
  · intro headers rows
    simp [print_result_set, Res.seq, emit]
  · intro f
    have htr : print_result_set { description := Option.none, fetchResult := f } =
        { trace := [Ev.out "Result set:", Ev.out "(No results to display)"],
          term := Term.normal } := by
      simp [print_result_set, Res.seq, emit]
    refine ⟨htr, ?_⟩
    rw [htr]
    decide

/-- C6: after a successful statement, `execute_query` prints the
execution message regardless of the flag and renders the result table
exactly when the flag is true; the flag's default value is true. -/
theorem execute_query_message_and_flag :
    (∀ q c b, execute_query q b (ExecOutcome.ok c) =
      { trace := [Ev.sql q, Ev.out (execMsgLine q)] ++
          (if b then (print_result_set c).trace else []),
        term := if b then (print_result_set c).term else Term.normal }) ∧
    (∀ q o, execute_query_default q o = execute_query q true o) := by
  constructor
  · intro q c b
    cases b <;> simp [execute_query, Res.seq, emit]
  · intro q o
    rfl

/-- C8: constructing with schema name `s` issues exactly one search-path
statement, `SET search_path TO <identifier-quoted s>, public;`, and then
prints the confirmation `Using schema '<s>'.` followed by a blank line;
for `s = "inventory"` the statement and the confirmation line are the
concrete strings below. -/
theorem schema_setup_statement_and_confirmation (s : String) :
    (initQE s InitOutcome.ok).trace =
      [Ev.out "Successfully connected to Postgres.", Ev.sql (searchPathStmt s),
       Ev.out (usingSchemaLine s), Ev.out ""] ∧
    (initQE s InitOutcome.ok).trace.countP isSqlEv = 1 ∧
    searchPathStmt s = "SET search_path TO " ++ quote_ident s ++ ", public;" ∧
    searchPathStmt "inventory" = "SET search_path TO \"inventory\", public;" ∧
    usingSchemaLine "inventory" = "Using schema 'inventory'." ∧
    defaultSchemaName = "wine" := by
  have htr : (initQE s InitOutcome.ok).trace =
      [Ev.out "Successfully connected to Postgres.", Ev.sql (searchPathStmt s),
       Ev.out (usingSchemaLine s), Ev.out ""] := by
    simp [initQE, Res.seq, emit]
  refine ⟨htr, ?_, rfl, by decide, by decide, rfl⟩
  rw [htr]
  simp [List.countP_cons, isSqlEv]

/-- C9: with the alternate connection string unset (its initial state) the
connection uses the fixed discrete parameters — user `postgres`, empty
password, host `localhost`, port `5432` — and the given database name;
when the alternate string is set it replaces all the discrete parameters;
both cases apply the UTF-8 client encoding. -/
theorem connection_parameter_selection :
    (∀ db, connectionSpec initialSupabaseConn db =
      ConnSpec.discrete db "postgres" "" "localhost" "5432" "UTF8") ∧
    (∀ c db, connectionSpec (Option.some c) db = ConnSpec.connString c "UTF8") ∧
    (∀ o db, (connectionSpec o db).clientEnc = "UTF8") := by
  refine ⟨fun db => rfl, fun c db => rfl, fun o db => ?_⟩
  cases o <;> rfl

/-- C1 (counterexample): calling `close()` twice on an executor holding a
connection prints `Database connection closed.` twice — the claim that the
confirmation is never printed more than once fails on the code, which
never resets the `connection` attribute to `None`. -/
theorem close_twice_prints_confirmation_twice :
    ¬ closeTwice.2.countP (fun e => decide (e = Ev.out "Database connection closed.")) ≤ 1 := by
  decide

/-- C1 (amended): `close()` never raises — on a never-connected instance
it does nothing and prints nothing, and on an instance holding a
connection it delegates to the idempotent psycopg2 `close()` — but it
prints the confirmation line on every call made while the attribute holds
a connection object, and the attribute keeps holding one after `close()`,
so repeated calls print the line repeatedly. -/
theorem close_never_raises_but_reprints (st : QueryExecutorS) :
    (st.connection = Option.none → st.close = (st, [])) ∧
    (∀ c, st.connection = Option.some c →
      st.close = ({ connection := Option.some c.closeConn },
        [Ev.out "Database connection closed."]) ∧
      st.close.1.connection = Option.some c.closeConn) := by
  constructor
  · intro h
    simp [QueryExecutorS.close, h]
  · intro c h
    constructor <;> simp [QueryExecutorS.close, h]

/-- C1 (witness): the amended theorem applied to a never-connected
instance and to the state after a successful construction. -/
theorem close_never_raises_but_reprints_witness :
    QueryExecutorS.close { connection := Option.none } =
      ({ connection := Option.none }, []) ∧
    postInitState.close = ({ connection := Option.some { closed := true } },
      [Ev.out "Database connection closed."]) :=
  ⟨(close_never_raises_but_reprints { connection := Option.none }).1 rfl,
   ((close_never_raises_but_reprints postInitState).2 { closed := false } rfl).1⟩

/-- C3 (counterexample): for a 65-character query whose 55th character is
a space, the printed message is not the fully collapsed-and-trimmed form
of the first 55 characters followed by `...` — the whitespace run at the
cut survives as a single space before the ellipsis. -/
theorem execution_message_spec_form_fails :
    55 < cexC3.length ∧ execMsgChars cexC3 ≠ specLongMsgChars cexC3 := by
  decide

/-- C3 (amended): the printed message for text of at most 55 characters is
the fully collapsed, trimmed text with no appended ellipsis; for longer
text it is the collapsed form of the first 55 raw characters with leading
whitespace trimmed — a whitespace run ending at the cut is kept as a
single space — followed by `...`; truncation happens before collapsing. -/
theorem execution_message_normalization (q : List Char) :
    (q.length ≤ 55 →
      execMsgChars q = execMsgOpen ++ (normalizeChars q ++ ['\"'])) ∧
    (55 < q.length →
      execMsgChars q =
        execMsgOpen ++ ((trimLeftWS (collapseWS (replaceNL (q.take 55))) ++ dots) ++ ['\"'])) := by
  constructor
  · intro h
    unfold execMsgChars truncate55
    rw [if_neg (by omega)]
  · intro h
    unfold execMsgChars
    rw [normalizeChars_truncated q h]

/-- C3 (witness): the amended theorem applied to a 12-character query with
redundant whitespace and to a 60-character query. -/
theorem execution_message_normalization_witness :
    execMsgChars shortQ = execMsgOpen ++ (normalizeChars shortQ ++ ['\"']) ∧
    execMsgChars longQ =
      execMsgOpen ++ ((trimLeftWS (collapseWS (replaceNL (longQ.take 55))) ++ dots) ++ ['\"']) :=
  ⟨(execution_message_normalization shortQ).1 (by decide),
   (execution_message_normalization longQ).2 (by decide)⟩

/-- C7: the driver exits with code 0 on every path; a non-database error
propagating to the top level is caught and reported with the
`An unexpected error occurred: ` prefix plus its full detail; and whenever
the executor was successfully constructed, the driver's last action is the
close of its connection. -/
theorem driver_catches_and_closes (w : World) :
    (driverMain w).exitCode = 0 ∧
    (∀ m d, (driverBody w).term = Term.exn m d →
      Ev.out ("An unexpected error occurred: " ++ m) ∈ (driverMain w).trace ∧
      Ev.err d ∈ (driverMain w).trace) ∧
    (constructed w = true →
      (driverMain w).trace.getLast? = some (Ev.out "Database connection closed.")) := by
  refine ⟨driver_exit_zero w, ?_, ?_⟩
  · intro m d h
    constructor <;>
      (unfold driverMain driverHandled; rw [h]; simp)
  · intro hc
    have hclose : (postInitState.close).2 = [Ev.out "Database connection closed."] := rfl
    unfold driverMain
    rw [hc]
    simp only [if_true]
    rw [hclose]
    exact List.getLast?_concat _

/-- C7 (witness): the theorem applied to a run where construction succeeds
and the first statement raises a non-database exception. -/
theorem driver_catches_and_closes_witness :
    (driverMain w1).exitCode = 0 ∧
    (Ev.out "An unexpected error occurred: boom" ∈ (driverMain w1).trace ∧
      Ev.err "tb" ∈ (driverMain w1).trace) ∧
    (driverMain w1).trace.getLast? = some (Ev.out "Database connection closed.") :=
  ⟨(driver_catches_and_closes w1).1,
   (driver_catches_and_closes w1).2.1 "boom" "tb" (by decide),
   (driver_catches_and_closes w1).2.2 rfl⟩

/-- C10: in `execute_query` the execution-message line appears in the
output exactly when the statement execution itself succeeded; when the
database error occurs only at fetch time, the message (and the header) has
already been printed before the fatal-error output, and no row or
row-count line follows — message without result table is the observable
outcome. -/
theorem fetch_failure_after_message (q : String) :
    (∀ b o, Ev.out (execMsgLine q) ∈ (execute_query q b o).trace ↔
      ∃ c, o = ExecOutcome.ok c) ∧
    (∀ headers d,
      execute_query q true (ExecOutcome.ok
          { description := Option.some headers, fetchResult := FetchOutcome.error d }) =
        { trace := [Ev.sql q, Ev.out (execMsgLine q), Ev.out "Result set:",
            Ev.out (sepJoin headers), Ev.err d, Ev.out "",
            Ev.out "Exiting due to SQL error."],
          term := Term.exit 0 }) := by
  have hne1 : execMsgLine q ≠ "" := execMsgLine_ne q "" (by decide)
  have hne2 : execMsgLine q ≠ "Exiting due to SQL error." :=
    execMsgLine_ne q "Exiting due to SQL error." (by decide)
  constructor
  · intro b o
    cases o with
    | ok c => simp [execute_query, Res.seq, emit]
    | dbFail d =>
      simp [execute_query, Res.seq, emit, handle_sql_exception, hne1, hne2]
    | pyError m d => simp [execute_query]
  · intro headers d
    simp [execute_query, print_result_set, Res.seq, emit, handle_sql_exception]

end SecondSolution
